import Mathlib

/-!
# Verification of the lucidlog-api response-normalization logic

Shallow embedding of `src/app.py` (the `lucidlog-api` repository): the prompt
builder `build_prompt`, the text extractor `extract_text_from_response`, the
response normalizer `parse_json_from_response`, and the request handler
`explain_log`, together with the Python primitives they rely on
(`str.strip`, `str.splitlines`, `str.join`, `str.startswith`, `json.loads`,
`json.dumps(..., indent=2)`, `dict.setdefault`, truthiness).

Python `dict`s (insertion ordered) are embedded as association lists,
JSON values as the inductive `JValue`, exceptions as `Except PyErr`.
Machine floats are not given numeric semantics: a float keeps its source
numeral token (no claim below depends on float arithmetic).
-/

namespace LucidLog

/-- JSON values as produced by Python's `json.loads` / consumed by
`json.dumps`.  `jint` holds integer literals (Python parses these to exact
`int`); `jfloat` holds the source token of a non-integer numeral (Python
parses these to IEEE floats, whose arithmetic no claim here depends on).
Objects are insertion-ordered key/value lists, as Python dicts are. -/
inductive JValue where
  | jnull : JValue
  | jbool : Bool → JValue
  | jint : Int → JValue
  | jfloat : String → JValue
  | jstr : String → JValue
  | jarr : List JValue → JValue
  | jobj : List (String × JValue) → JValue
deriving Repr

/-- A Python dict with string keys: insertion-ordered key/value pairs. -/
abbrev PyObj := List (String × JValue)

/-- A Python exception, abstracted to the text `str(e)` yields. -/
structure PyErr where
  msg : String
deriving Repr, DecidableEq

/-! ## Python string primitives -/

/-- The characters Python's `str.strip()` (no argument) removes:
`Py_UNICODE_ISSPACE`. -/
def isPySpace (c : Char) : Bool :=
  (0x09 ≤ c.val && c.val ≤ 0x0d) || (0x1c ≤ c.val && c.val ≤ 0x1f) ||
  c.val == 0x20 || c.val == 0x85 || c.val == 0xa0 || c.val == 0x1680 ||
  (0x2000 ≤ c.val && c.val ≤ 0x200a) || c.val == 0x2028 || c.val == 0x2029 ||
  c.val == 0x202f || c.val == 0x205f || c.val == 0x3000

/-- Drop trailing characters satisfying `p` (helper for `pyStrip`). -/
def dropTrailing (p : Char → Bool) (cs : List Char) : List Char :=
  (cs.reverse.dropWhile p).reverse

/-- Python `s.strip()`: remove leading and trailing whitespace. -/
def pyStrip (s : String) : String :=
  String.mk (dropTrailing isPySpace (s.data.dropWhile isPySpace))

/-- Python `s.startswith(p)`. -/
def pyStartsWith (p s : String) : Bool :=
  p.data.isPrefixOf s.data

/-- The line boundaries recognised by Python's `str.splitlines`
(LF, VT, FF, CR, FS, GS, RS, NEL, LINE SEPARATOR, PARAGRAPH SEPARATOR;
CRLF counts as a single boundary). -/
def isLineBoundary (c : Char) : Bool :=
  c.val == 0x0a || c.val == 0x0b || c.val == 0x0c || c.val == 0x0d ||
  c.val == 0x1c || c.val == 0x1d || c.val == 0x1e || c.val == 0x85 ||
  c.val == 0x2028 || c.val == 0x2029

/-- Worker for `pySplitlines`; `cur` is the current line, reversed. -/
def pySplitlinesAux : List Char → List Char → List String
  | [], cur => if cur.isEmpty then [] else [String.mk cur.reverse]
  | '\r' :: '\n' :: rest, cur => String.mk cur.reverse :: pySplitlinesAux rest []
  | c :: rest, cur =>
    if isLineBoundary c then String.mk cur.reverse :: pySplitlinesAux rest []
    else pySplitlinesAux rest (c :: cur)

/-- Python `s.splitlines()`: split at line boundaries, no trailing empty
line for a trailing terminator, `[]` for the empty string. -/
def pySplitlines (s : String) : List String :=
  pySplitlinesAux s.data []

/-- Python `sep.join(parts)`. -/
def pyJoin (sep : String) : List String → String
  | [] => ""
  | [x] => x
  | x :: xs => x ++ sep ++ pyJoin sep xs

/-! ## Python truthiness and `str()` for JSON-derived values -/

/-- Whether a float numeral token denotes mathematical zero (all mantissa
digits `0`).  Used only for Python truthiness of floats; underflow of tiny
non-zero literals to `0.0` is a float artifact not modelled (no claim
instantiates a float). -/
def floatTokenIsZero (t : String) : Bool :=
  (t.data.filter (fun c => c.isDigit && c ≠ '0')).isEmpty ||
    t.data.all (fun c => !(c.isDigit))

/-- Python truthiness (`bool(v)`) of a JSON-derived value. -/
def pyTruthy : JValue → Bool
  | .jnull => false
  | .jbool b => b
  | .jint n => n ≠ 0
  | .jfloat t => !floatTokenIsZero t
  | .jstr s => s ≠ ""
  | .jarr l => !l.isEmpty
  | .jobj l => !l.isEmpty

/-- Python `str(v)` for a JSON-derived value.  Exact for `None`, booleans,
integers and strings — the cases the program and the claims exercise.  For
floats the source numeral token stands in for `repr(float)`, and for lists
and dicts a JSON-style rendering stands in for Python's `repr` (Python
quotes strings with `'`); no theorem below depends on those renderings. -/
def pyStr : JValue → String
  | .jnull => "None"
  | .jbool true => "True"
  | .jbool false => "False"
  | .jint n => toString n
  | .jfloat t => t
  | .jstr s => s
  | .jarr _ => "[...]"
  | .jobj _ => "\x7b...\x7d"

/-! ## Python dict operations -/

/-- First-match association lookup, i.e. `k in d` / `d[k]` on a dict whose
keys are unique (insertion order is the list order). -/
def lookupKey (m : PyObj) (k : String) : Option JValue :=
  match m with
  | [] => none
  | (k', v) :: rest => if k' = k then some v else lookupKey rest k

/-- Python `d.setdefault(k, v)`: insert `k ↦ v` at the end if `k` is
absent, otherwise leave `d` unchanged. -/
def setdefault (m : PyObj) (k : String) (v : JValue) : PyObj :=
  match lookupKey m k with
  | some _ => m
  | none => m ++ [(k, v)]

/-- Python `d[k] = v` on a dict: overwrite in place if present, else append
(CPython keeps the first insertion position on overwrite). -/
def insertKey (m : PyObj) (k : String) (v : JValue) : PyObj :=
  match m with
  | [] => [(k, v)]
  | (k', v') :: rest =>
    if k' = k then (k, v) :: rest else (k', v') :: insertKey rest k v

/-! ## `json.loads`

A recursive-descent parser following CPython's `json` module: JSON
whitespace is space/tab/LF/CR; strings are double-quoted with the standard
escapes and reject unescaped control characters (strict mode); numbers
follow `NUMBER_RE` (integer tokens become exact ints, others floats);
`NaN`/`Infinity`/`-Infinity` are accepted (CPython default); objects keep
insertion order, a duplicate key overwriting the value in place; trailing
data after the top-level value is an error.  A failed parse is `none`
(CPython raises `json.JSONDecodeError`). -/

/-- Skip JSON whitespace (space, tab, LF, CR). -/
def skipWs (cs : List Char) : List Char :=
  cs.dropWhile (fun c => c == ' ' || c == '\t' || c == '\n' || c == '\r')

/-- Value of a hex digit, if `c` is one. -/
def hexDigit (c : Char) : Option Nat :=
  if '0' ≤ c && c ≤ '9' then some (c.toNat - 48)
  else if 'a' ≤ c && c ≤ 'f' then some (c.toNat - 87)
  else if 'A' ≤ c && c ≤ 'F' then some (c.toNat - 55)
  else none

/-- Value of four hex digits. -/
def hex4 (a b c d : Char) : Option Nat := do
  let a' ← hexDigit a
  let b' ← hexDigit b
  let c' ← hexDigit c
  let d' ← hexDigit d
  pure (a' * 4096 + b' * 256 + c' * 16 + d')

/-- Parse the rest of a JSON string, the opening quote already consumed;
`acc` is the decoded text, reversed.  `\uXXXX` surrogate pairs are
combined; a lone surrogate (which Python would keep as an unpaired
code unit, unrepresentable in a Lean `Char`) decodes to U+FFFD. -/
def parseJStringAux : List Char → List Char → Option (String × List Char)
  | [], _ => none
  | '"' :: rest, acc => some (String.mk acc.reverse, rest)
  | '\\' :: '"' :: rest, acc => parseJStringAux rest ('"' :: acc)
  | '\\' :: '\\' :: rest, acc => parseJStringAux rest ('\\' :: acc)
  | '\\' :: '/' :: rest, acc => parseJStringAux rest ('/' :: acc)
  | '\\' :: 'b' :: rest, acc => parseJStringAux rest ('\x08' :: acc)
  | '\\' :: 'f' :: rest, acc => parseJStringAux rest ('\x0c' :: acc)
  | '\\' :: 'n' :: rest, acc => parseJStringAux rest ('\n' :: acc)
  | '\\' :: 'r' :: rest, acc => parseJStringAux rest ('\r' :: acc)
  | '\\' :: 't' :: rest, acc => parseJStringAux rest ('\t' :: acc)
  | '\\' :: 'u' :: h1 :: h2 :: h3 :: h4 :: '\\' :: 'u' :: g1 :: g2 :: g3 :: g4 :: rest, acc =>
    match hex4 h1 h2 h3 h4, hex4 g1 g2 g3 g4 with
    | some n, some m =>
      if 0xd800 ≤ n && n ≤ 0xdbff && 0xdc00 ≤ m && m ≤ 0xdfff then
        parseJStringAux rest
          (Char.ofNat (0x10000 + (n - 0xd800) * 0x400 + (m - 0xdc00)) :: acc)
      else if 0xd800 ≤ n && n ≤ 0xdfff then
        parseJStringAux ('\\' :: 'u' :: g1 :: g2 :: g3 :: g4 :: rest)
          (Char.ofNat 0xfffd :: acc)
      else
        parseJStringAux ('\\' :: 'u' :: g1 :: g2 :: g3 :: g4 :: rest)
          (Char.ofNat n :: acc)
    | _, _ => none
  | '\\' :: 'u' :: h1 :: h2 :: h3 :: h4 :: rest, acc =>
    match hex4 h1 h2 h3 h4 with
    | some n =>
      if 0xd800 ≤ n && n ≤ 0xdfff then parseJStringAux rest (Char.ofNat 0xfffd :: acc)
      else parseJStringAux rest (Char.ofNat n :: acc)
    | none => none
  | '\\' :: _, _ => none
  | c :: rest, acc => if c.val < 0x20 then none else parseJStringAux rest (c :: acc)

/-- Natural number denoted by a list of decimal digits. -/
def digitsToNat (ds : List Char) : Nat :=
  ds.foldl (fun a c => a * 10 + (c.toNat - 48)) 0

/-- Parse the optional exponent of a numeral whose sign, integer part and
fraction part are `neg`/`intds`/`fracds`, and assemble the result:
integer tokens give `jint`, others the `jfloat` token (CPython parses
those to floats). -/
def parseNumExp (neg : Bool) (intds fracds : List Char) (cs : List Char) :
    Option (JValue × List Char) :=
  let sign : String := if neg then "-" else ""
  let (expds, cs2) :=
    match cs with
    | e :: r =>
      if e == 'e' || e == 'E' then
        match r with
        | s :: r' =>
          if s == '+' || s == '-' then
            let (ds, r'') := r'.span Char.isDigit
            if ds.isEmpty then ([], cs) else (e :: s :: ds, r'')
          else
            let (ds, r'') := r.span Char.isDigit
            if ds.isEmpty then ([], cs) else (e :: ds, r'')
        | [] => ([], cs)
      else ([], cs)
    | [] => ([], cs)
  if fracds.isEmpty && expds.isEmpty then
    let n : Int := Int.ofNat (digitsToNat intds)
    some (.jint (if neg then -n else n), cs)
  else
    some (.jfloat (sign ++ String.mk intds ++ String.mk fracds ++ String.mk expds), cs2)

/-- Parse the optional fraction and exponent of a numeral whose sign and
integer part are `neg`/`intds`. -/
def parseNumTail (neg : Bool) (intds : List Char) (cs : List Char) :
    Option (JValue × List Char) :=
  match cs with
  | '.' :: r =>
    let (ds, r') := r.span Char.isDigit
    if ds.isEmpty then parseNumExp neg intds [] cs
    else parseNumExp neg intds ('.' :: ds) r'
  | _ => parseNumExp neg intds [] cs

/-- Lex a JSON numeral (CPython's `NUMBER_RE`):
`-?(0|[1-9][0-9]*)(\.[0-9]+)?([eE][+-]?[0-9]+)?`. -/
def parseNum (cs : List Char) : Option (JValue × List Char) :=
  let (neg, cs1) := match cs with | '-' :: r => (true, r) | _ => (false, cs)
  match cs1 with
  | '0' :: r => parseNumTail neg ['0'] r
  | c :: r =>
    if c.isDigit then
      let (ds, r') := r.span Char.isDigit
      parseNumTail neg (c :: ds) r'
    else none
  | [] => none

mutual

/-- Parse one JSON value at the head of `cs` (no leading whitespace). -/
def parseVal : Nat → List Char → Option (JValue × List Char)
  | 0, _ => none
  | fuel + 1, cs =>
    match cs with
    | '{' :: rest =>
      match skipWs rest with
      | '}' :: r => some (.jobj [], r)
      | cs' => parseObjBody fuel cs' []
    | '[' :: rest =>
      match skipWs rest with
      | ']' :: r => some (.jarr [], r)
      | cs' => parseArrBody fuel cs' []
    | '"' :: rest => (parseJStringAux rest []).map (fun p => (.jstr p.1, p.2))
    | 't' :: 'r' :: 'u' :: 'e' :: rest => some (.jbool true, rest)
    | 'f' :: 'a' :: 'l' :: 's' :: 'e' :: rest => some (.jbool false, rest)
    | 'n' :: 'u' :: 'l' :: 'l' :: rest => some (.jnull, rest)
    | 'N' :: 'a' :: 'N' :: rest => some (.jfloat "nan", rest)
    | 'I' :: 'n' :: 'f' :: 'i' :: 'n' :: 'i' :: 't' :: 'y' :: rest =>
      some (.jfloat "inf", rest)
    | '-' :: 'I' :: 'n' :: 'f' :: 'i' :: 'n' :: 'i' :: 't' :: 'y' :: rest =>
      some (.jfloat "-inf", rest)
    | _ => parseNum cs

/-- Parse object members, `cs` positioned at a key's opening quote. -/
def parseObjBody : Nat → List Char → PyObj → Option (JValue × List Char)
  | 0, _, _ => none
  | fuel + 1, cs, acc =>
    match cs with
    | '"' :: rest =>
      match parseJStringAux rest [] with
      | none => none
      | some (k, r1) =>
        match skipWs r1 with
        | ':' :: r2 =>
          match parseVal fuel (skipWs r2) with
          | none => none
          | some (v, r3) =>
            match skipWs r3 with
            | '}' :: r4 => some (.jobj (insertKey acc k v), r4)
            | ',' :: r4 => parseObjBody fuel (skipWs r4) (insertKey acc k v)
            | _ => none
        | _ => none
    | _ => none

/-- Parse array items, `cs` positioned at an item's first character. -/
def parseArrBody : Nat → List Char → List JValue → Option (JValue × List Char)
  | 0, _, _ => none
  | fuel + 1, cs, acc =>
    match parseVal fuel cs with
    | none => none
    | some (v, r1) =>
      match skipWs r1 with
      | ']' :: r2 => some (.jarr (acc ++ [v]), r2)
      | ',' :: r2 => parseArrBody fuel (skipWs r2) (acc ++ [v])
      | _ => none

end

/-- Python `json.loads(s)`: parse one JSON value, allowing surrounding
whitespace and rejecting trailing data; `none` models
`json.JSONDecodeError`. -/
def jsonLoads (s : String) : Option JValue :=
  match parseVal (s.data.length + 1) (skipWs s.data) with
  | some (v, rest) => if (skipWs rest).isEmpty then some v else none
  | none => none

/-! ## `json.dumps(..., indent=2)` -/

/-- Lower-case hex digit. -/
def hexChar (n : Nat) : Char :=
  if n < 10 then Char.ofNat (48 + n) else Char.ofNat (87 + n)

/-- Four lower-case hex digits, as in Python's `\uXXXX` escapes. -/
def hexStr4 (n : Nat) : String :=
  String.mk [hexChar (n / 4096 % 16), hexChar (n / 256 % 16),
             hexChar (n / 16 % 16), hexChar (n % 16)]

/-- One character of CPython's `py_encode_basestring_ascii`
(`json.dumps` default, `ensure_ascii=True`): short escapes for the common
control characters, `\uXXXX` for other controls and all non-ASCII
(surrogate pairs above the BMP), everything else verbatim. -/
def escChar (c : Char) : String :=
  if c = '"' then "\\\""
  else if c = '\\' then "\\\\"
  else if c = '\n' then "\\n"
  else if c = '\r' then "\\r"
  else if c = '\t' then "\\t"
  else if c.val == 0x08 then "\\b"
  else if c.val == 0x0c then "\\f"
  else if c.val < 0x20 then "\\u" ++ hexStr4 c.toNat
  else if c.val < 0x7f then String.mk [c]
  else if c.val < 0x10000 then "\\u" ++ hexStr4 c.toNat
  else
    "\\u" ++ hexStr4 (0xd800 + (c.toNat - 0x10000) / 0x400) ++
    "\\u" ++ hexStr4 (0xdc00 + (c.toNat - 0x10000) % 0x400)

/-- A JSON string literal for `s`, as `json.dumps` renders strings. -/
def jsonQuote (s : String) : String :=
  "\"" ++ String.join (s.data.map escChar) ++ "\""

/-- Indentation of `2 * lvl` spaces: the indentation for nesting level `lvl` under
`indent=2`. -/
def indentStr (lvl : Nat) : String :=
  String.mk (List.replicate (lvl * 2) ' ')

mutual

/-- Python `json.dumps(v, indent=2)`, at nesting level `lvl`: non-empty
containers open on their own line, items on one line each at the deeper
indentation, key/value joined by `": "`, items separated by `","`, the
closer indented at the container's level (CPython `_make_iterencode` with
an indent).  Floats print their stored token (Python prints `repr(float)`;
no claim depends on a float rendering). -/
def jdumpVal : Nat → JValue → String
  | _, .jnull => "null"
  | _, .jbool true => "true"
  | _, .jbool false => "false"
  | _, .jint n => toString n
  | _, .jfloat t => t
  | _, .jstr s => jsonQuote s
  | _, .jarr [] => "[]"
  | lvl, .jarr (x :: xs) =>
    "[\n" ++ jdumpItems (lvl + 1) (x :: xs) ++ "\n" ++ indentStr lvl ++ "]"
  | _, .jobj [] => "\x7b\x7d"
  | lvl, .jobj (e :: es) =>
    "\x7b\n" ++ jdumpEntries (lvl + 1) (e :: es) ++ "\n" ++ indentStr lvl ++ "\x7d"

/-- Array items, one per line, comma-separated. -/
def jdumpItems : Nat → List JValue → String
  | _, [] => ""
  | lvl, [x] => indentStr lvl ++ jdumpVal lvl x
  | lvl, x :: xs => indentStr lvl ++ jdumpVal lvl x ++ ",\n" ++ jdumpItems lvl xs

/-- Object entries, one per line, `"key": value`, comma-separated. -/
def jdumpEntries : Nat → PyObj → String
  | _, [] => ""
  | lvl, [(k, v)] => indentStr lvl ++ jsonQuote k ++ ": " ++ jdumpVal lvl v
  | lvl, (k, v) :: es =>
    indentStr lvl ++ jsonQuote k ++ ": " ++ jdumpVal lvl v ++ ",\n" ++
    jdumpEntries lvl es

end

/-- Python `json.dumps(context, indent=2)` for a context dict. -/
def jsonDumps2 (ctx : PyObj) : String :=
  jdumpVal 0 (.jobj ctx)

/-! ## The program: `src/app.py` -/

/-- The module-level `LOG_EXPLAINER_INSTRUCTIONS` triple-quoted string
(leading and trailing newline included, braces written `\x7b`/`\x7d`). -/
def LOG_EXPLAINER_INSTRUCTIONS : String :=
  "\nYou are a senior SRE helping a developer understand log entries.\n\n" ++
  "Given:\n- A single log line (possibly JSON or plain text)\n" ++
  "- Optional context metadata\n\nGoals:\n" ++
  "- Parse or infer: timestamp, severity, component/service, and main event\n" ++
  "- Explain in plain English what happened\n" ++
  "- Infer likely causes and recommended next troubleshooting steps\n\n" ++
  "Output ONLY JSON with the following schema:\n\x7b\n" ++
  "  \"summary\": string,\n  \"severity\": string,\n" ++
  "  \"component\": string | null,\n  \"probable_causes\": string[],\n" ++
  "  \"recommended_actions\": string[],\n  \"raw_log\": string\n\x7d\n" ++
  "Do not add any extra fields.\n" ++
  "If the log cannot be interpreted, state that in \"summary\" and keep other fields minimal.\n"

/-- The function `build_prompt(log_entry, context)`: instruction block (stripped), blank
line, `LOG ENTRY:` and `str(log_entry)`; then, when `context` is truthy
(a non-empty dict), a blank line, `ADDITIONAL CONTEXT (JSON):` and
`json.dumps(context, indent=2)`; then a blank line and the reminder;
all joined with newlines. -/
def build_prompt (log_entry : JValue) (context : Option PyObj) : String :=
  let parts := [pyStrip LOG_EXPLAINER_INSTRUCTIONS, "", "LOG ENTRY:", pyStr log_entry]
  let parts := parts ++
    (match context with
     | some c => if !c.isEmpty then ["", "ADDITIONAL CONTEXT (JSON):", jsonDumps2 c] else []
     | none => [])
  let parts := parts ++ ["", "Return ONLY JSON as specified above."]
  pyJoin "\n" parts

/-- A part of a model-SDK candidate's content: `text` attribute, absent
modelled as `none`. -/
structure GPart where
  text : Option String
deriving Repr

/-- A candidate's `content`: its `parts` attribute (absent or a list). -/
structure GContent where
  parts : Option (List GPart)
deriving Repr

/-- A response candidate: its `content` attribute (`None`/absent is
`none`; an SDK content object is always truthy). -/
structure GCandidate where
  content : Option GContent
deriving Repr

/-- The model-SDK response object, as `extract_text_from_response` and
`explain_log` access it: `text`, `candidates` and `prompt_feedback`
attributes, each possibly `None`/absent. -/
structure GResponse where
  text : Option String
  candidates : Option (List GCandidate)
  prompt_feedback : Option JValue
deriving Repr

/-- The body of the inner loop of `extract_text_from_response`:
`part_text = getattr(part, "text", None); if part_text:
texts.append(part_text)`. -/
def partStep (acc : List String) (part : GPart) : List String :=
  match part.text with
  | some pt => if pt ≠ "" then acc ++ [pt] else acc
  | none => acc

/-- The body of the outer loop of `extract_text_from_response`: skip a
falsy `content`, else run the inner loop over `content.parts or []`. -/
def candidateStep (acc : List String) (candidate : GCandidate) : List String :=
  match candidate.content with
  | none => acc
  | some content => (content.parts.getD []).foldl partStep acc

/-- The function `extract_text_from_response(response)`: if `response.text` is truthy
(a non-empty string) return it stripped; otherwise walk
`candidates → content → parts → text` with the two loops above
(candidate order, then part order), and return the accumulated texts
joined with newlines, stripped. -/
def extract_text_from_response (response : GResponse) : String :=
  if response.text.getD "" ≠ "" then pyStrip (response.text.getD "")
  else pyStrip (pyJoin "\n" ((response.candidates.getD []).foldl candidateStep []))

/-- The minimal fallback object for an empty model reply
(`parse_json_from_response`, empty branch). -/
def emptyFallback (log_entry : JValue) : PyObj :=
  [("summary", .jstr "Model returned an empty response."),
   ("severity", .jstr "INFO"),
   ("component", .jnull),
   ("probable_causes", .jarr []),
   ("recommended_actions", .jarr []),
   ("raw_log", log_entry)]

/-- The fallback object for an unparseable candidate text
(`parse_json_from_response`, `except json.JSONDecodeError` branch). -/
def parseFallback (cleaned : String) (log_entry : JValue) : PyObj :=
  [("summary", .jstr cleaned),
   ("severity", .jstr "INFO"),
   ("component", .jnull),
   ("probable_causes", .jarr []),
   ("recommended_actions", .jarr []),
   ("raw_log", log_entry)]

/-- The fence-stripping block of `parse_json_from_response`, entered when
the stripped text starts with three backticks: with at least two lines,
drop the first line, drop the last line too when its strip starts with
three backticks, and re-join stripped. -/
def stripFenceLines (cleaned : String) : String :=
  let lines := pySplitlines cleaned
  if lines.length ≥ 2 then
    let lines := lines.drop 1
    let lines :=
      match lines.getLast? with
      | some last => if pyStartsWith "```" (pyStrip last) then lines.dropLast else lines
      | none => lines
    pyStrip (pyJoin "\n" lines)
  else cleaned

/-- The candidate text `cleaned` that `parse_json_from_response` hands to
`json.loads`: the reply stripped, fences removed when present. -/
def cleanedOf (text : String) : String :=
  let cleaned := pyStrip text
  if pyStartsWith "```" cleaned then stripFenceLines cleaned else cleaned

/-- Python type name of a JSON-derived value, as it appears in an
`AttributeError` message. -/
def pyTypeName : JValue → String
  | .jnull => "NoneType"
  | .jbool _ => "bool"
  | .jint _ => "int"
  | .jfloat _ => "float"
  | .jstr _ => "str"
  | .jarr _ => "list"
  | .jobj _ => "dict"

/-- The `AttributeError` raised by `obj.setdefault(...)` when
`json.loads` produced a non-dict. -/
def setdefaultErr (v : JValue) : PyErr :=
  ⟨"'" ++ pyTypeName v ++ "' object has no attribute 'setdefault'"⟩

/-- The tail of `parse_json_from_response` on a dict `obj`:
`obj.setdefault("raw_log", log_entry)`, then, when `debug_meta` is not
`None`, `obj.setdefault("_debug", debug_meta)`. -/
def afterParse (obj : PyObj) (log_entry : JValue) (debug_meta : Option PyObj) : PyObj :=
  let obj := setdefault obj "raw_log" log_entry
  match debug_meta with
  | some dm => setdefault obj "_debug" (.jobj dm)
  | none => obj

/-- The function `parse_json_from_response(text, log_entry, debug_meta)`.  Empty text:
the minimal fallback, with `result["_debug"] = debug_meta` when
`debug_meta` is truthy (a non-empty dict).  Otherwise: strip, remove
fences, `json.loads`; a dict flows into the setdefault tail; a parse
failure (`json.JSONDecodeError`) falls back to an object carrying the
candidate text as summary, same tail; a parsed non-dict makes
`obj.setdefault` raise `AttributeError`, which propagates. -/
def parse_json_from_response (text : String) (log_entry : JValue)
    (debug_meta : Option PyObj) : Except PyErr PyObj :=
  if text = "" then
    .ok
      (match debug_meta with
       | some dm =>
         if !dm.isEmpty then insertKey (emptyFallback log_entry) "_debug" (.jobj dm)
         else emptyFallback log_entry
       | none => emptyFallback log_entry)
  else
    let cleaned := cleanedOf text
    match jsonLoads cleaned with
    | some (.jobj m) => .ok (afterParse m log_entry debug_meta)
    | some v => .error (setdefaultErr v)
    | none => .ok (afterParse (parseFallback cleaned log_entry) log_entry debug_meta)

/-- One HTTP reply: status code, envelope `status` string, envelope
`result` (an object on success, a message string on error). -/
structure HttpReply where
  code : Nat
  status : String
  result : JValue
deriving Repr

/-- Modelled from the spec: `helpers.rest_error` (the `helpers` module is
imported by `app.py` but absent from the sources).  Per §6/§7, every
failure response is HTTP 400 with envelope
`\x7b"status": "ERROR", "result": message\x7d`. -/
def rest_error (msg : String) : HttpReply :=
  ⟨400, "ERROR", .jstr msg⟩

/-- Modelled from the spec: `helpers.rest_response` (the `helpers` module
is imported by `app.py` but absent from the sources).  Per §6, a success
response is HTTP 200 with envelope
`\x7b"status": "OK", "result": payload\x7d`. -/
def rest_response (payload : PyObj) : HttpReply :=
  ⟨200, "OK", .jobj payload⟩

/-- The `debug_meta` value `explain_log` computes: `None` when the
extracted text is truthy, otherwise the two-entry diagnostic dict with
`has_candidates` (`bool(response.candidates)`) and `prompt_feedback`
(`None` stored as JSON null). -/
def debugMetaOf (response : GResponse) : Option PyObj :=
  if extract_text_from_response response = "" then
    some [("has_candidates",
            .jbool (match response.candidates with
                    | some l => !l.isEmpty
                    | none => false)),
          ("prompt_feedback", response.prompt_feedback.getD .jnull)]
  else none

/-- The `/explain-log` handler `explain_log`.  `log`/`context` are the
request body's fields (`none` for absent); `gen` is the external model
call `client.models.generate_content`, which may raise.  The returned
`Bool` records whether the model was called.  A falsy `log` short-circuits
to the missing-field error; any exception raised by the model call or by
normalization is caught and reported as `"Gemini API error: " + str(e)`
(`build_prompt` cannot raise: `str()` is total on JSON-derived values). -/
def explain_log (log : Option JValue) (context : Option PyObj)
    (gen : String → Except PyErr GResponse) : HttpReply × Bool :=
  match log with
  | none => (rest_error "Missing 'log' field in JSON body", false)
  | some lv =>
    if pyTruthy lv then
      match gen (build_prompt lv context) with
      | .error e => (rest_error ("Gemini API error: " ++ e.msg), true)
      | .ok response =>
        let raw_text := extract_text_from_response response
        match parse_json_from_response raw_text lv (debugMetaOf response) with
        | .error e => (rest_error ("Gemini API error: " ++ e.msg), true)
        | .ok parsed => (rest_response parsed, true)
    else (rest_error "Missing 'log' field in JSON body", false)

/-- The text a part contributes to the fallback walk: its `text`
attribute when that is a non-empty string. -/
def partTextOf (part : GPart) : Option String :=
  match part.text with
  | some pt => if pt ≠ "" then some pt else none
  | none => none

/-- The truthy part texts of one candidate, in part order (the texts the
inner loop of `extract_text_from_response` appends for that candidate). -/
def partTexts (candidate : GCandidate) : List String :=
  match candidate.content with
  | none => []
  | some content => (content.parts.getD []).filterMap partTextOf

/-- All part texts of a response, candidate order then part order. -/
def collectedTexts (response : GResponse) : List String :=
  ((response.candidates.getD []).map partTexts).flatten

/-! ## Dictionary lemmas -/

theorem lookupKey_append (m l : PyObj) (k : String) :
    lookupKey (m ++ l) k =
      match lookupKey m k with
      | some v => some v
      | none => lookupKey l k := by
  induction m with
  | nil => simp [lookupKey]
  | cons e rest ih =>
    obtain ⟨k', v'⟩ := e
    by_cases hk : k' = k <;> simp [lookupKey, hk, ih]

theorem lookupKey_setdefault_self {m : PyObj} {k : String} {v : JValue}
    (h : lookupKey m k = none) : lookupKey (setdefault m k v) k = some v := by
  simp [setdefault, h, lookupKey_append, lookupKey]

theorem setdefault_of_found {m : PyObj} {k : String} {w : JValue} (v : JValue)
    (h : lookupKey m k = some w) : setdefault m k v = m := by
  simp [setdefault, h]

theorem lookupKey_setdefault_ne {m : PyObj} {k k' : String} {v : JValue}
    (h : k' ≠ k) : lookupKey (setdefault m k' v) k = lookupKey m k := by
  unfold setdefault
  cases hl : lookupKey m k' with
  | some w => rfl
  | none =>
    rw [lookupKey_append]
    simp only [lookupKey, h, if_neg]
    cases lookupKey m k <;> rfl

theorem afterParse_raw_log_of_absent {m : PyObj} {log : JValue}
    {dm : Option PyObj} (h : lookupKey m "raw_log" = none) :
    lookupKey (afterParse m log dm) "raw_log" = some log := by
  unfold afterParse
  cases dm with
  | none => exact lookupKey_setdefault_self h
  | some d =>
    rw [lookupKey_setdefault_ne (by decide)]
    exact lookupKey_setdefault_self h

theorem afterParse_raw_log_of_present {m : PyObj} {log v : JValue}
    {dm : Option PyObj} (h : lookupKey m "raw_log" = some v) :
    lookupKey (afterParse m log dm) "raw_log" = some v := by
  unfold afterParse
  rw [setdefault_of_found log h]
  cases dm with
  | none => exact h
  | some d => rw [lookupKey_setdefault_ne (by decide)]; exact h

/-! ## The claims -/

/-- C1, counterexample.  The model's reply is a JSON object carrying
`raw_log = "model"` while the request log is `"orig"`; the normalizer's
result keeps the model's value (`setdefault` does not override), so
`raw_log` is not force-set to the original log. -/
theorem raw_log_model_value_kept :
    parse_json_from_response "\x7b\"raw_log\": \"model\"\x7d" (.jstr "orig") none
      = .ok [("raw_log", JValue.jstr "model")] ∧
    "model" ≠ "orig" :=
  ⟨rfl, by decide⟩

/-- C1, amended.  For every non-empty reply whose candidate text parses
as a JSON object, the result is the parsed object run through the
`setdefault` tail: `raw_log` equals the original log exactly when the
model's object did not itself carry a `raw_log` key; a model-supplied
`raw_log` value is preserved. -/
theorem raw_log_setdefault_semantics (text : String) (log : JValue)
    (dm : Option PyObj) (m : PyObj)
    (h1 : text ≠ "") (h2 : jsonLoads (cleanedOf text) = some (.jobj m)) :
    parse_json_from_response text log dm = .ok (afterParse m log dm) ∧
    (lookupKey m "raw_log" = none →
      lookupKey (afterParse m log dm) "raw_log" = some log) ∧
    (∀ v, lookupKey m "raw_log" = some v →
      lookupKey (afterParse m log dm) "raw_log" = some v) := by
  refine ⟨?_, fun h => afterParse_raw_log_of_absent h,
          fun v h => afterParse_raw_log_of_present h⟩
  simp [parse_json_from_response, h1, h2]

/-- C1, witness: a model object without `raw_log` gets the original log
injected. -/
theorem raw_log_setdefault_semantics_witness :
    parse_json_from_response "\x7b\"a\": 1\x7d" (.jstr "orig") none
      = .ok (afterParse [("a", JValue.jint 1)] (.jstr "orig") none) :=
  (raw_log_setdefault_semantics "\x7b\"a\": 1\x7d" (.jstr "orig") none
    [("a", JValue.jint 1)] (by decide) (by rfl)).1

/-- C4.  For an empty raw reply, `parse_json_from_response` returns
exactly the minimal fallback object (summary, severity INFO, null
component, empty lists, original log), and attaches the caller's
diagnostic dict under `_debug` when one was supplied (the caller's dict
is non-empty, hence truthy). -/
theorem empty_reply_fallback (log : JValue) (dm : PyObj) :
    parse_json_from_response "" log none =
      .ok [("summary", JValue.jstr "Model returned an empty response."),
           ("severity", JValue.jstr "INFO"),
           ("component", JValue.jnull),
           ("probable_causes", JValue.jarr []),
           ("recommended_actions", JValue.jarr []),
           ("raw_log", log)] ∧
    (dm ≠ [] →
      parse_json_from_response "" log (some dm) =
        .ok [("summary", JValue.jstr "Model returned an empty response."),
             ("severity", JValue.jstr "INFO"),
             ("component", JValue.jnull),
             ("probable_causes", JValue.jarr []),
             ("recommended_actions", JValue.jarr []),
             ("raw_log", log),
             ("_debug", JValue.jobj dm)]) := by
  constructor
  · rfl
  · intro h
    cases dm with
    | nil => exact absurd rfl h
    | cons e es => rfl

/-- C4, witness: empty reply with the handler-shaped diagnostic dict. -/
theorem empty_reply_fallback_witness :
    parse_json_from_response "" (.jstr "L")
        (some [("has_candidates", JValue.jbool false),
               ("prompt_feedback", JValue.jnull)]) =
      .ok [("summary", JValue.jstr "Model returned an empty response."),
           ("severity", JValue.jstr "INFO"),
           ("component", JValue.jnull),
           ("probable_causes", JValue.jarr []),
           ("recommended_actions", JValue.jarr []),
           ("raw_log", JValue.jstr "L"),
           ("_debug", JValue.jobj [("has_candidates", JValue.jbool false),
                                   ("prompt_feedback", JValue.jnull)])] :=
  (empty_reply_fallback (.jstr "L")
      [("has_candidates", JValue.jbool false),
       ("prompt_feedback", JValue.jnull)]).2 (by simp)

/-- C5.  For a non-empty reply whose candidate (trimmed, fences removed)
is not parseable as JSON, `parse_json_from_response` does not raise and
returns the fallback object whose summary is the candidate text itself,
severity INFO, null component, empty lists, and the original log as
`raw_log` (plus `_debug` when the caller passed a non-`None`
diagnostic dict). -/
theorem unparseable_reply_fallback (text : String) (log : JValue)
    (dm : Option PyObj)
    (h1 : text ≠ "") (h2 : jsonLoads (cleanedOf text) = none) :
    parse_json_from_response text log dm =
      .ok ([("summary", JValue.jstr (cleanedOf text)),
            ("severity", JValue.jstr "INFO"),
            ("component", JValue.jnull),
            ("probable_causes", JValue.jarr []),
            ("recommended_actions", JValue.jarr []),
            ("raw_log", log)] ++
           (match dm with
            | some d => [("_debug", JValue.jobj d)]
            | none => [])) := by
  have hstep : parse_json_from_response text log dm =
      .ok (afterParse (parseFallback (cleanedOf text) log) log dm) := by
    simp [parse_json_from_response, h1, h2]
  rw [hstep]
  cases dm with
  | none => rfl
  | some d => rfl

/-- C5, witness: the plain-text reply from the spec's example. -/
theorem unparseable_reply_fallback_witness :
    parse_json_from_response "I cannot process this" (.jstr "orig") none =
      .ok [("summary", JValue.jstr (cleanedOf "I cannot process this")),
           ("severity", JValue.jstr "INFO"),
           ("component", JValue.jnull),
           ("probable_causes", JValue.jarr []),
           ("recommended_actions", JValue.jarr []),
           ("raw_log", JValue.jstr "orig")] :=
  unparseable_reply_fallback "I cannot process this" (.jstr "orig") none
    (by decide) (by rfl)

/-- C3.  For a reply whose trimmed text starts with a fence marker, has a
last line that (stripped) is itself a fence marker, and whose middle lines
parse as a JSON object: the candidate text is exactly the middle lines
re-joined and stripped (both fence lines dropped), and the normalizer
returns the parsed object (run through the `raw_log`/`_debug` injection
tail), not a fallback object. -/
theorem fenced_json_parsed (text : String) (log : JValue) (dm : Option PyObj)
    (firstLine lastLine : String) (mid : List String) (m : PyObj)
    (h1 : text ≠ "")
    (h2 : pyStartsWith "```" (pyStrip text) = true)
    (h3 : pySplitlines (pyStrip text) = firstLine :: mid ++ [lastLine])
    (h4 : pyStartsWith "```" (pyStrip lastLine) = true)
    (h5 : jsonLoads (pyStrip (pyJoin "\n" mid)) = some (.jobj m)) :
    cleanedOf text = pyStrip (pyJoin "\n" mid) ∧
    parse_json_from_response text log dm = .ok (afterParse m log dm) := by
  have hclean : cleanedOf text = pyStrip (pyJoin "\n" mid) := by
    unfold cleanedOf stripFenceLines
    simp [h2, h3, List.getLast?_concat, h4, List.dropLast_concat]
  have h5' : jsonLoads (cleanedOf text) = some (.jobj m) := by
    rw [hclean]; exact h5
  refine ⟨hclean, ?_⟩
  simp [parse_json_from_response, h1, h5']

/-- C3, witness: a reply fenced by a tagged opening fence and a plain
closing fence around a one-line JSON object. -/
theorem fenced_json_parsed_witness :
    parse_json_from_response "```json\n\x7b\"a\": 1\x7d\n```" (.jstr "orig") none
      = .ok (afterParse [("a", JValue.jint 1)] (.jstr "orig") none) :=
  (fenced_json_parsed "```json\n\x7b\"a\": 1\x7d\n```" (.jstr "orig") none
    "```json" "```" ["\x7b\"a\": 1\x7d"] [("a", JValue.jint 1)]
    (by decide) (by rfl) (by rfl) (by rfl) (by rfl)).2

/-- C6.  A non-empty reply whose candidate parses as valid JSON that is
not an object makes `parse_json_from_response` raise (`setdefault` on a
non-dict is an `AttributeError`), and the handler answers with the
`Gemini API error:` ERROR envelope instead of a result object. -/
theorem nonobject_json_reply_errors (s : String) (ctx : Option PyObj)
    (gen : String → Except PyErr GResponse) (resp : GResponse) (v : JValue)
    (h0 : s ≠ "")
    (h1 : gen (build_prompt (.jstr s) ctx) = .ok resp)
    (h2 : extract_text_from_response resp ≠ "")
    (h3 : jsonLoads (cleanedOf (extract_text_from_response resp)) = some v)
    (h4 : ∀ m, v ≠ .jobj m) :
    parse_json_from_response (extract_text_from_response resp) (.jstr s)
        (debugMetaOf resp) = .error (setdefaultErr v) ∧
    explain_log (some (.jstr s)) ctx gen =
      (rest_error ("Gemini API error: " ++ (setdefaultErr v).msg), true) := by
  have hdm : debugMetaOf resp = none := by simp [debugMetaOf, h2]
  have hT : pyTruthy (.jstr s) = true := by simp [pyTruthy, h0]
  have hp : parse_json_from_response (extract_text_from_response resp) (.jstr s)
      (debugMetaOf resp) = .error (setdefaultErr v) := by
    rw [hdm]
    cases v with
    | jobj m => exact absurd rfl (h4 m)
    | jnull => simp [parse_json_from_response, h2, h3]
    | jbool b => simp [parse_json_from_response, h2, h3]
    | jint n => simp [parse_json_from_response, h2, h3]
    | jfloat t => simp [parse_json_from_response, h2, h3]
    | jstr t => simp [parse_json_from_response, h2, h3]
    | jarr l => simp [parse_json_from_response, h2, h3]
  refine ⟨hp, ?_⟩
  simp [explain_log, hT, h1, hp]

/-- C6, witness: the reply `[1, 2]` produces the list-`setdefault`
`AttributeError` envelope. -/
theorem nonobject_json_reply_errors_witness :
    explain_log (some (.jstr "L")) none
        (fun _ => .ok ⟨some "[1, 2]", none, none⟩) =
      (rest_error ("Gemini API error: " ++
        (setdefaultErr (.jarr [JValue.jint 1, JValue.jint 2])).msg), true) :=
  (nonobject_json_reply_errors "L" none
    (fun _ => .ok ⟨some "[1, 2]", none, none⟩)
    ⟨some "[1, 2]", none, none⟩ (.jarr [JValue.jint 1, JValue.jint 2])
    (by decide) (by rfl) (by decide) (by rfl)
    (fun m h => JValue.noConfusion h)).2

/-- C7.  With a truthy log, any exception raised by the model call or by
normalization is reported as HTTP 400, status `ERROR`, and a result
string that is exactly `"Gemini API error: "` followed by the
exception's message. -/
theorem any_exception_gemini_envelope (lv : JValue) (ctx : Option PyObj)
    (gen : String → Except PyErr GResponse)
    (h : pyTruthy lv = true) :
    (∀ e, gen (build_prompt lv ctx) = .error e →
      explain_log (some lv) ctx gen =
        (⟨400, "ERROR", .jstr ("Gemini API error: " ++ e.msg)⟩, true)) ∧
    (∀ resp e, gen (build_prompt lv ctx) = .ok resp →
      parse_json_from_response (extract_text_from_response resp) lv
          (debugMetaOf resp) = .error e →
      explain_log (some lv) ctx gen =
        (⟨400, "ERROR", .jstr ("Gemini API error: " ++ e.msg)⟩, true)) := by
  constructor
  · intro e he
    simp [explain_log, h, he, rest_error]
  · intro resp e hr hp
    simp [explain_log, h, hr, hp, rest_error]

/-- C7, witness: an upstream timeout's message appears after the
`Gemini API error:` text, with status 400/ERROR. -/
theorem any_exception_gemini_envelope_witness :
    explain_log (some (.jstr "L")) none (fun _ => .error ⟨"Upstream timeout"⟩) =
      (⟨400, "ERROR", .jstr ("Gemini API error: " ++ "Upstream timeout")⟩, true) :=
  (any_exception_gemini_envelope (.jstr "L") none
    (fun _ => .error ⟨"Upstream timeout"⟩) (by decide)).1
    ⟨"Upstream timeout"⟩ rfl

/-- C8.  A request without a `log` field gets HTTP 400, status `ERROR`,
a result text containing `Missing 'log' field`, and the model is not
called. -/
theorem missing_log_no_model_call (ctx : Option PyObj)
    (gen : String → Except PyErr GResponse) :
    explain_log none ctx gen =
      (⟨400, "ERROR", .jstr "Missing 'log' field in JSON body"⟩, false) ∧
    ∃ pre post, "Missing 'log' field in JSON body" =
      pre ++ "Missing 'log' field" ++ post :=
  ⟨rfl, "", " in JSON body", rfl⟩

theorem foldl_partStep (ps : List GPart) (acc : List String) :
    ps.foldl partStep acc = acc ++ ps.filterMap partTextOf := by
  induction ps generalizing acc with
  | nil => simp
  | cons p ps ih =>
    obtain ⟨t⟩ := p
    cases t with
    | none => simp [partStep, partTextOf, ih]
    | some pt =>
      by_cases hpt : pt = "" <;> simp [partStep, partTextOf, hpt, ih]

theorem foldl_candidateStep (cs : List GCandidate) (acc : List String) :
    cs.foldl candidateStep acc = acc ++ (cs.map partTexts).flatten := by
  induction cs generalizing acc with
  | nil => simp
  | cons c cs ih =>
    obtain ⟨ct⟩ := c
    cases ct with
    | none => simp [candidateStep, partTexts, ih]
    | some content =>
      simp [candidateStep, partTexts, foldl_partStep, ih, List.append_assoc]

/-- C9.  When the response exposes no non-empty direct `text`, the
extractor returns the texts of all truthy content parts, in candidate
order then part order, joined by newlines and trimmed — and the empty
string when no such part texts exist. -/
theorem extract_fallback_is_collected (r : GResponse)
    (h : r.text.getD "" = "") :
    extract_text_from_response r = pyStrip (pyJoin "\n" (collectedTexts r)) ∧
    (collectedTexts r = [] → extract_text_from_response r = "") := by
  have hx : extract_text_from_response r =
      pyStrip (pyJoin "\n" (collectedTexts r)) := by
    unfold extract_text_from_response
    simp [h, collectedTexts, foldl_candidateStep]
  refine ⟨hx, fun hc => ?_⟩
  rw [hx, hc]
  rfl

/-- C9, witness: two candidates with part texts `"a"` (alongside an empty
and an absent text) and `"b"`; the extractor joins them as `"a\nb"`. -/
theorem extract_fallback_is_collected_witness :
    extract_text_from_response
        ⟨some "", some [⟨some ⟨some [⟨some "a"⟩, ⟨some ""⟩, ⟨none⟩]⟩⟩,
                        ⟨none⟩, ⟨some ⟨some [⟨some "b"⟩]⟩⟩], none⟩ =
      pyStrip (pyJoin "\n" (collectedTexts
        ⟨some "", some [⟨some ⟨some [⟨some "a"⟩, ⟨some ""⟩, ⟨none⟩]⟩⟩,
                        ⟨none⟩, ⟨some ⟨some [⟨some "b"⟩]⟩⟩], none⟩)) :=
  (extract_fallback_is_collected
    ⟨some "", some [⟨some ⟨some [⟨some "a"⟩, ⟨some ""⟩, ⟨none⟩]⟩⟩,
                    ⟨none⟩, ⟨some ⟨some [⟨some "b"⟩]⟩⟩], none⟩ rfl).1

/-- C10.  The prompt contains the log line verbatim; when a non-empty
context is supplied it contains the context serialized as
`json.dumps(..., indent=2)` under the `ADDITIONAL CONTEXT (JSON):` label;
when the context is absent or empty the prompt is exactly the
instruction/log/reminder text with no context section; and the prompt
always ends with the reminder line. -/
theorem build_prompt_shape (log : String) (ctx : Option PyObj) :
    (∃ pre post, build_prompt (.jstr log) ctx = pre ++ (log ++ post)) ∧
    (∀ c, ctx = some c → c ≠ [] →
      ∃ pre post, build_prompt (.jstr log) ctx =
        pre ++ (("ADDITIONAL CONTEXT (JSON):" ++ "\n" ++ jsonDumps2 c) ++ post)) ∧
    ((ctx = none ∨ ctx = some []) →
      build_prompt (.jstr log) ctx =
        pyStrip LOG_EXPLAINER_INSTRUCTIONS ++
          ("\n\nLOG ENTRY:\n" ++
            (log ++ "\n\nReturn ONLY JSON as specified above."))) ∧
    (∃ pre, build_prompt (.jstr log) ctx =
      pre ++ "Return ONLY JSON as specified above.") := by
  match ctx with
  | none =>
    refine ⟨?_, ?_, ?_, ?_⟩
    · exact ⟨pyStrip LOG_EXPLAINER_INSTRUCTIONS ++ "\n\nLOG ENTRY:\n",
             "\n\nReturn ONLY JSON as specified above.", by
        apply String.ext
        simp [build_prompt, pyStr, pyJoin, String.data_append]⟩
    · exact fun c hc => nomatch hc
    · intro _
      apply String.ext
      simp [build_prompt, pyStr, pyJoin, String.data_append]
    · exact ⟨pyStrip LOG_EXPLAINER_INSTRUCTIONS ++
               "\n\nLOG ENTRY:\n" ++ log ++ "\n\n", by
        apply String.ext
        simp [build_prompt, pyStr, pyJoin, String.data_append]⟩
  | some [] =>
    refine ⟨?_, ?_, ?_, ?_⟩
    · exact ⟨pyStrip LOG_EXPLAINER_INSTRUCTIONS ++ "\n\nLOG ENTRY:\n",
             "\n\nReturn ONLY JSON as specified above.", by
        apply String.ext
        simp [build_prompt, pyStr, pyJoin, String.data_append]⟩
    · exact fun d hd hne => absurd (by injection hd) (Ne.symm hne)
    · intro _
      apply String.ext
      simp [build_prompt, pyStr, pyJoin, String.data_append]
    · exact ⟨pyStrip LOG_EXPLAINER_INSTRUCTIONS ++
               "\n\nLOG ENTRY:\n" ++ log ++ "\n\n", by
        apply String.ext
        simp [build_prompt, pyStr, pyJoin, String.data_append]⟩
  | some (e :: es) =>
    refine ⟨?_, ?_, ?_, ?_⟩
    · exact ⟨pyStrip LOG_EXPLAINER_INSTRUCTIONS ++ "\n\nLOG ENTRY:\n",
             "\n\nADDITIONAL CONTEXT (JSON):\n" ++ jsonDumps2 (e :: es) ++
               "\n\nReturn ONLY JSON as specified above.", by
        apply String.ext
        simp [build_prompt, pyStr, pyJoin, String.data_append]⟩
    · intro d hd hdne
      obtain rfl : e :: es = d := by injection hd
      exact ⟨pyStrip LOG_EXPLAINER_INSTRUCTIONS ++
               "\n\nLOG ENTRY:\n" ++ log ++ "\n\n",
             "\n\nReturn ONLY JSON as specified above.", by
        apply String.ext
        simp [build_prompt, pyStr, pyJoin, String.data_append]⟩
    · intro hcontra
      rcases hcontra with h' | h'
      · cases h'
      · exact absurd (by injection h') (List.cons_ne_nil e es)
    · exact ⟨pyStrip LOG_EXPLAINER_INSTRUCTIONS ++
               "\n\nLOG ENTRY:\n" ++ log ++
               "\n\nADDITIONAL CONTEXT (JSON):\n" ++ jsonDumps2 (e :: es) ++
               "\n\n", by
        apply String.ext
        simp [build_prompt, pyStr, pyJoin, String.data_append]⟩

/-- C10, witness: a concrete log line and one-entry context; the context
section holds and both sides evaluate. -/
theorem build_prompt_shape_witness :
    ∃ pre post, build_prompt (.jstr "LOGLINE") (some [("host", JValue.jstr "node-03")]) =
      pre ++ (("ADDITIONAL CONTEXT (JSON):" ++ "\n" ++
        jsonDumps2 [("host", JValue.jstr "node-03")]) ++ post) :=
  (build_prompt_shape "LOGLINE" (some [("host", JValue.jstr "node-03")])).2.1
    [("host", JValue.jstr "node-03")] rfl (by simp)

/-- C2, counterexample.  With the non-textual log `123` and a model call
that returns a valid JSON object, the handler returns the 200/OK
envelope: prompt construction did not fail (`str(123)` succeeds), the
model was called, and no upstream-error envelope is produced. -/
theorem nontextual_log_prompt_succeeds :
    explain_log (some (.jint 123)) none
        (fun _ => .ok ⟨some "\x7b\"summary\": \"ok\"\x7d", none, none⟩) =
      (⟨200, "OK", .jobj [("summary", JValue.jstr "ok"),
                          ("raw_log", JValue.jint 123)]⟩, true) :=
  rfl

/-- C2, amended.  A truthy non-textual log does not make `build_prompt`
raise: the value is coerced with `str()` and appears in the prompt; the
handler always proceeds to the model call; and only when the model call
itself raises is the failure reported as the generic
`Gemini API error:` envelope. -/
theorem nontextual_log_coerced (n : Int) (ctx : Option PyObj) (h : n ≠ 0) :
    (∃ pre post, build_prompt (.jint n) ctx = pre ++ (toString n ++ post)) ∧
    (∀ gen, (explain_log (some (.jint n)) ctx gen).2 = true) ∧
    (∀ gen e, gen (build_prompt (.jint n) ctx) = .error e →
      explain_log (some (.jint n)) ctx gen =
        (⟨400, "ERROR", .jstr ("Gemini API error: " ++ e.msg)⟩, true)) := by
  have hT : pyTruthy (.jint n) = true := by simp [pyTruthy, h]
  refine ⟨?_, fun gen => ?_, fun gen e he => ?_⟩
  · match ctx with
    | none =>
      exact ⟨pyStrip LOG_EXPLAINER_INSTRUCTIONS ++ "\n\nLOG ENTRY:\n",
             "\n\nReturn ONLY JSON as specified above.", by
        apply String.ext
        simp [build_prompt, pyStr, pyJoin, String.data_append]⟩
    | some [] =>
      exact ⟨pyStrip LOG_EXPLAINER_INSTRUCTIONS ++ "\n\nLOG ENTRY:\n",
             "\n\nReturn ONLY JSON as specified above.", by
        apply String.ext
        simp [build_prompt, pyStr, pyJoin, String.data_append]⟩
    | some (e :: es) =>
      exact ⟨pyStrip LOG_EXPLAINER_INSTRUCTIONS ++ "\n\nLOG ENTRY:\n",
             "\n\nADDITIONAL CONTEXT (JSON):\n" ++ jsonDumps2 (e :: es) ++
               "\n\nReturn ONLY JSON as specified above.", by
        apply String.ext
        simp [build_prompt, pyStr, pyJoin, String.data_append]⟩
  · rcases hg : gen (build_prompt (.jint n) ctx) with e | resp
    · simp [explain_log, hT, hg]
    · rcases hp : parse_json_from_response (extract_text_from_response resp)
          (.jint n) (debugMetaOf resp) with e | parsed <;>
        simp [explain_log, hT, hg, hp]
  · simp [explain_log, hT, he, rest_error]

/-- C2 amended, witness: the test's log value `123`. -/
theorem nontextual_log_coerced_witness :
    (explain_log (some (.jint 123)) none
      (fun _ => .error ⟨"boom"⟩)).2 = true :=
  (nontextual_log_coerced 123 none (by decide)).2.1
    (fun _ => .error ⟨"boom"⟩)

end LucidLog
